import Mathlib

/-!
fp_wrap: a FILE pointer wrapper class.

A shallow embedding of `fp_wrap.hpp`.  The object state is the single data
member `m_fp`.  The C standard I/O primitives the header forwards to are not
part of the header: they are taken as a parameter (`Platform`), each primitive
an arbitrary function of the history of platform calls made so far and of its
arguments.  Every platform call is appended to that history together with the
value it returned, so that "which primitive was called, on what, how often and
in which order" are statements about a list.
-/

/-- A `FILE*` value: an address. -/
abbrev FilePtr := Nat

/-- The null pointer constant `NULL` of `<cstdio>`. -/
def NULL : FilePtr := 0

/-- A `const wchar_t*` string: its code units. -/
abbrev WString := List Nat

/-- A `va_list`: the variadic arguments it walks over (addresses or values). -/
abbrev VaList := List Int

/-- One call of a standard I/O primitive: the arguments in the order of the C
prototype, then the value the call returned. -/
inductive Event where
  | fopen (fname mode : String) (ret : FilePtr)
  | wfopen (fname mode : WString) (ret : FilePtr)
  | tmpfile (ret : FilePtr)
  | fclose (stream : FilePtr) (ret : Int)
  | feof (stream : FilePtr) (ret : Int)
  | ferror (stream : FilePtr) (ret : Int)
  | fread (buffer size count : Nat) (stream : FilePtr) (ret : Nat)
  | fwrite (buffer size count : Nat) (stream : FilePtr) (ret : Nat)
  | fgetc (stream : FilePtr) (ret : Int)
  | fputc (ch : Int) (stream : FilePtr) (ret : Int)
  | fgets (str : Nat) (count : Int) (stream : FilePtr) (ret : Nat)
  | fputs (str : String) (stream : FilePtr) (ret : Int)
  | vfscanf (stream : FilePtr) (fmt : String) (va : VaList) (ret : Int)
  | vfprintf (stream : FilePtr) (fmt : String) (va : VaList) (ret : Int)
  | ftell (stream : FilePtr) (ret : Int)
  | fseek (stream : FilePtr) (offset : Int) (origin : Int) (ret : Int)
  | fflush (stream : FilePtr) (ret : Int)
  deriving DecidableEq, Repr

/-- The world outside the object: the platform calls made so far, oldest first. -/
abbrev World := List Event

/-- The platform the header is compiled against: the `EOF` constant and the
standard I/O primitives.  Each primitive sees the history of calls, so its
result may depend on everything that happened before. -/
structure Platform where
  EOF : Int
  fopen : World → String → String → FilePtr
  wfopen : World → WString → WString → FilePtr
  tmpfile : World → FilePtr
  fclose : World → FilePtr → Int
  feof : World → FilePtr → Int
  ferror : World → FilePtr → Int
  fread : World → Nat → Nat → Nat → FilePtr → Nat
  fwrite : World → Nat → Nat → Nat → FilePtr → Nat
  fgetc : World → FilePtr → Int
  fputc : World → Int → FilePtr → Int
  fgets : World → Nat → Int → FilePtr → Nat
  fputs : World → String → FilePtr → Int
  vfscanf : World → FilePtr → String → VaList → Int
  vfprintf : World → FilePtr → String → VaList → Int
  ftell : World → FilePtr → Int
  fseek : World → FilePtr → Int → Int → Int
  fflush : World → FilePtr → Int

/-- The data members of `class fp_wrap`. -/
structure fp_wrap where
  m_fp : FilePtr
  deriving DecidableEq, Repr

/-- How a member function call ends: it returns a value, leaving the object and
the world in some state, or an assertion fails and the program is aborted. -/
inductive Outcome (α : Type) where
  | returned (ret : α) (self : fp_wrap) (w : World)
  | aborted (self : fp_wrap) (w : World)
  deriving DecidableEq, Repr

/-- A member function body: run on an object in a world. -/
def Method (α : Type) : Type := fp_wrap → World → Outcome α

namespace Outcome

/-- The object as the call left it. -/
def self {α : Type} : Outcome α → fp_wrap
  | returned _ s _ => s
  | aborted s _ => s

/-- The world as the call left it. -/
def world {α : Type} : Outcome α → World
  | returned _ _ w => w
  | aborted _ w => w

/-- Whether the call returned (no assertion failed). -/
def isReturned {α : Type} : Outcome α → Bool
  | returned _ _ _ => true
  | aborted _ _ => false

/-- The returned value, if the call returned. -/
def ret? {α : Type} : Outcome α → Option α
  | returned r _ _ => some r
  | aborted _ _ => none

end Outcome

namespace Method

/-- Return a value without touching the object or the world. -/
def pure {α : Type} (a : α) : Method α := fun self w => Outcome.returned a self w

/-- Sequencing of statements: an abort ends the whole body. -/
def bind {α β : Type} (m : Method α) (f : α → Method β) : Method β := fun self w =>
  match m self w with
  | Outcome.returned a self1 w1 => f a self1 w1
  | Outcome.aborted self1 w1 => Outcome.aborted self1 w1

end Method

instance : Monad Method where
  pure := Method.pure
  bind := Method.bind

/-- Read the data member `m_fp`. -/
def get_m_fp : Method FilePtr := fun self w => Outcome.returned self.m_fp self w

/-- Assign the data member `m_fp`. -/
def set_m_fp (fp : FilePtr) : Method Unit := fun _ w => Outcome.returned () { m_fp := fp } w

/-- Modelled from the spec: the `assert` macro of `<cassert>`, which the header
includes but does not define.  The spec calls it "a fatal precondition failure
(assertion), not recoverable": a false condition aborts on the spot, a true one
does nothing. -/
def assert (cond : Bool) : Method Unit := fun self w =>
  if cond then Outcome.returned () self w else Outcome.aborted self w

/-! Calls of the platform primitives -/

namespace std

def fopen (P : Platform) (fname mode : String) : Method FilePtr := fun self w =>
  Outcome.returned (P.fopen w fname mode) self (w ++ [Event.fopen fname mode (P.fopen w fname mode)])

def wfopen (P : Platform) (fname mode : WString) : Method FilePtr := fun self w =>
  Outcome.returned (P.wfopen w fname mode) self
    (w ++ [Event.wfopen fname mode (P.wfopen w fname mode)])

def tmpfile (P : Platform) : Method FilePtr := fun self w =>
  Outcome.returned (P.tmpfile w) self (w ++ [Event.tmpfile (P.tmpfile w)])

def fclose (P : Platform) (stream : FilePtr) : Method Int := fun self w =>
  Outcome.returned (P.fclose w stream) self (w ++ [Event.fclose stream (P.fclose w stream)])

def feof (P : Platform) (stream : FilePtr) : Method Int := fun self w =>
  Outcome.returned (P.feof w stream) self (w ++ [Event.feof stream (P.feof w stream)])

def ferror (P : Platform) (stream : FilePtr) : Method Int := fun self w =>
  Outcome.returned (P.ferror w stream) self (w ++ [Event.ferror stream (P.ferror w stream)])

def fread (P : Platform) (buffer size count : Nat) (stream : FilePtr) : Method Nat :=
  fun self w =>
    Outcome.returned (P.fread w buffer size count stream) self
      (w ++ [Event.fread buffer size count stream (P.fread w buffer size count stream)])

def fwrite (P : Platform) (buffer size count : Nat) (stream : FilePtr) : Method Nat :=
  fun self w =>
    Outcome.returned (P.fwrite w buffer size count stream) self
      (w ++ [Event.fwrite buffer size count stream (P.fwrite w buffer size count stream)])

def fgetc (P : Platform) (stream : FilePtr) : Method Int := fun self w =>
  Outcome.returned (P.fgetc w stream) self (w ++ [Event.fgetc stream (P.fgetc w stream)])

def fputc (P : Platform) (ch : Int) (stream : FilePtr) : Method Int := fun self w =>
  Outcome.returned (P.fputc w ch stream) self (w ++ [Event.fputc ch stream (P.fputc w ch stream)])

def fgets (P : Platform) (str : Nat) (count : Int) (stream : FilePtr) : Method Nat :=
  fun self w =>
    Outcome.returned (P.fgets w str count stream) self
      (w ++ [Event.fgets str count stream (P.fgets w str count stream)])

def fputs (P : Platform) (str : String) (stream : FilePtr) : Method Int := fun self w =>
  Outcome.returned (P.fputs w str stream) self (w ++ [Event.fputs str stream (P.fputs w str stream)])

def vfscanf (P : Platform) (stream : FilePtr) (fmt : String) (va : VaList) : Method Int :=
  fun self w =>
    Outcome.returned (P.vfscanf w stream fmt va) self
      (w ++ [Event.vfscanf stream fmt va (P.vfscanf w stream fmt va)])

def vfprintf (P : Platform) (stream : FilePtr) (fmt : String) (va : VaList) : Method Int :=
  fun self w =>
    Outcome.returned (P.vfprintf w stream fmt va) self
      (w ++ [Event.vfprintf stream fmt va (P.vfprintf w stream fmt va)])

def ftell (P : Platform) (stream : FilePtr) : Method Int := fun self w =>
  Outcome.returned (P.ftell w stream) self (w ++ [Event.ftell stream (P.ftell w stream)])

def fseek (P : Platform) (stream : FilePtr) (offset origin : Int) : Method Int := fun self w =>
  Outcome.returned (P.fseek w stream offset origin) self
    (w ++ [Event.fseek stream offset origin (P.fseek w stream offset origin)])

def fflush (P : Platform) (stream : FilePtr) : Method Int := fun self w =>
  Outcome.returned (P.fflush w stream) self (w ++ [Event.fflush stream (P.fflush w stream)])

end std

/-! The member functions, in the order of the header -/

/-- Source: `fp_wrap::fp_wrap() : m_fp(NULL)`. -/
def fp_wrap.ctor (w : World) : Outcome Unit :=
  Outcome.returned () { m_fp := NULL } w

/-- Source: `fp_wrap::fp_wrap(FILE *fp) : m_fp(fp)`. -/
def fp_wrap.ctor_fp (fp : FilePtr) (w : World) : Outcome Unit :=
  Outcome.returned () { m_fp := fp } w

/-- Source: `fp_wrap::fp_wrap(const char *fname, const char *mode) : m_fp(std::fopen(fname, mode))`. -/
def fp_wrap.ctor_fname (P : Platform) (fname mode : String) (w : World) : Outcome Unit :=
  Outcome.returned () { m_fp := P.fopen w fname mode }
    (w ++ [Event.fopen fname mode (P.fopen w fname mode)])

/-- Source: `bool fp_wrap::is_open() const`. -/
def fp_wrap.is_open : Method Bool := do
  return (← get_m_fp) != NULL

/-- Source: `int fp_wrap::close()`. -/
def fp_wrap.close (P : Platform) : Method Int := do
  let mut ret := P.EOF
  if (← get_m_fp) != NULL then
    ret ← std.fclose P (← get_m_fp)
    set_m_fp NULL
  return ret

/-- Source: `fp_wrap::~fp_wrap()`. -/
def fp_wrap.dtor (P : Platform) : Method Unit := do
  let _ ← fp_wrap.close P

/-- Source: `bool fp_wrap::open(const char *fname, const char *mode)`. -/
def fp_wrap.open (P : Platform) (fname mode : String) : Method Bool := do
  let _ ← fp_wrap.close P
  set_m_fp (← std.fopen P fname mode)
  fp_wrap.is_open

/-- Source: `bool fp_wrap::open_tmp()`. -/
def fp_wrap.open_tmp (P : Platform) : Method Bool := do
  let _ ← fp_wrap.close P
  set_m_fp (← std.tmpfile P)
  fp_wrap.is_open

/-- Source: `bool fp_wrap::is_eof() const`. -/
def fp_wrap.is_eof (P : Platform) : Method Bool := do
  assert ((← get_m_fp) != NULL)
  return (← std.feof P (← get_m_fp)) != 0

/-- Source: `int fp_wrap::get_error() const`. -/
def fp_wrap.get_error (P : Platform) : Method Int := do
  assert ((← get_m_fp) != NULL)
  std.ferror P (← get_m_fp)

/-- Source: `size_t fp_wrap::read(void *buffer, size_t size, size_t count)`. -/
def fp_wrap.read (P : Platform) (buffer size count : Nat) : Method Nat := do
  assert ((← get_m_fp) != NULL)
  std.fread P buffer size count (← get_m_fp)

/-- Source: `size_t fp_wrap::write(const void *buffer, size_t size, size_t count)`. -/
def fp_wrap.write (P : Platform) (buffer size count : Nat) : Method Nat := do
  assert ((← get_m_fp) != NULL)
  std.fwrite P buffer size count (← get_m_fp)

/-- Source: `int fp_wrap::getchr()`. -/
def fp_wrap.getchr (P : Platform) : Method Int := do
  assert ((← get_m_fp) != NULL)
  std.fgetc P (← get_m_fp)

/-- Source: `int fp_wrap::putchr(int chr)`. -/
def fp_wrap.putchr (P : Platform) (chr : Int) : Method Int := do
  assert ((← get_m_fp) != NULL)
  std.fputc P chr (← get_m_fp)

/-- Source: `char *fp_wrap::getstr(char *str, int count)`. -/
def fp_wrap.getstr (P : Platform) (str : Nat) (count : Int) : Method Nat := do
  assert ((← get_m_fp) != NULL)
  std.fgets P str count (← get_m_fp)

/-- Source: `int fp_wrap::putstr(const char *str)`. -/
def fp_wrap.putstr (P : Platform) (str : String) : Method Int := do
  assert ((← get_m_fp) != NULL)
  std.fputs P str (← get_m_fp)

/-- Source: `int fp_wrap::vscan(const char *fmt, va_list va)`. -/
def fp_wrap.vscan (P : Platform) (fmt : String) (va : VaList) : Method Int := do
  assert ((← get_m_fp) != NULL)
  std.vfscanf P (← get_m_fp) fmt va

/-- Source: `int fp_wrap::scan(const char *fmt, ...)`: `args` are the variadic
arguments, which `va_start` makes the `va_list`. -/
def fp_wrap.scan (P : Platform) (fmt : String) (args : VaList) : Method Int := do
  assert ((← get_m_fp) != NULL)
  let va := args
  let ret ← fp_wrap.vscan P fmt va
  return ret

/-- Source: `int fp_wrap::vprint(const char *fmt, va_list va)`. -/
def fp_wrap.vprint (P : Platform) (fmt : String) (va : VaList) : Method Int := do
  assert ((← get_m_fp) != NULL)
  std.vfprintf P (← get_m_fp) fmt va

/-- Source: `int fp_wrap::print(const char *fmt, ...)`: `args` are the variadic
arguments, which `va_start` makes the `va_list`. -/
def fp_wrap.print (P : Platform) (fmt : String) (args : VaList) : Method Int := do
  assert ((← get_m_fp) != NULL)
  let va := args
  let ret ← fp_wrap.vprint P fmt va
  return ret

/-- Source: `long fp_wrap::tell()`. -/
def fp_wrap.tell (P : Platform) : Method Int := do
  assert ((← get_m_fp) != NULL)
  std.ftell P (← get_m_fp)

/-- Source: `int fp_wrap::seek(long offset, int origin)`. -/
def fp_wrap.seek (P : Platform) (offset origin : Int) : Method Int := do
  assert ((← get_m_fp) != NULL)
  std.fseek P (← get_m_fp) offset origin

/-- Source: `int fp_wrap::flush()`. -/
def fp_wrap.flush (P : Platform) : Method Int := do
  assert ((← get_m_fp) != NULL)
  std.fflush P (← get_m_fp)

/-- The body the header gives under the name `fp_wrap::wopen` (`#ifdef _WIN32`). -/
def fp_wrap.wopen (P : Platform) (fname mode : WString) : Method Bool := do
  let _ ← fp_wrap.close P
  set_m_fp (← std.wfopen P fname mode)
  fp_wrap.is_open

/-- Source: `fp_wrap::fp_wrap(const wchar_t *fname, const wchar_t *mode) : m_fp(NULL)`,
whose body calls `wopen(fname, mode)` (`#ifdef _WIN32`). -/
def fp_wrap.ctor_wide (P : Platform) (fname mode : WString) (w : World) : Outcome Unit :=
  (do let _ ← fp_wrap.wopen P fname mode) { m_fp := NULL } w

/-! The member table of the class

Which members the class body declares (lines 19-61 of the header) and which
member definitions follow it (lines 66-248), with and without `_WIN32`. -/

/-- Parameter types occurring in the header. -/
inductive CType where
  | FILE_ptr | const_char_ptr | const_wchar_t_ptr | void_ptr | const_void_ptr | char_ptr
  | size_t | int | long | va_list | ellipsis | const_fp_wrap_ref
  deriving DecidableEq, Repr

/-- A member function up to overloading: its name and parameter types. -/
structure MemberSig where
  name : String
  params : List CType
  deriving DecidableEq, Repr

/-- The member functions declared inside `class fp_wrap`. -/
def declaredMembers (WIN32 : Bool) : List MemberSig :=
  [ ⟨"fp_wrap", []⟩,
    ⟨"fp_wrap", [CType.FILE_ptr]⟩,
    ⟨"fp_wrap", [CType.const_char_ptr, CType.const_char_ptr]⟩,
    ⟨"~fp_wrap", []⟩,
    ⟨"open", [CType.const_char_ptr, CType.const_char_ptr]⟩,
    ⟨"open_tmp", []⟩,
    ⟨"is_open", []⟩,
    ⟨"is_eof", []⟩,
    ⟨"get_error", []⟩,
    ⟨"fp", []⟩,
    ⟨"read", [CType.void_ptr, CType.size_t, CType.size_t]⟩,
    ⟨"write", [CType.const_void_ptr, CType.size_t, CType.size_t]⟩,
    ⟨"getchr", []⟩,
    ⟨"putchr", [CType.int]⟩,
    ⟨"getstr", [CType.char_ptr, CType.int]⟩,
    ⟨"putstr", [CType.const_char_ptr]⟩,
    ⟨"scan", [CType.const_char_ptr, CType.ellipsis]⟩,
    ⟨"vscan", [CType.const_char_ptr, CType.va_list]⟩,
    ⟨"print", [CType.const_char_ptr, CType.ellipsis]⟩,
    ⟨"vprint", [CType.const_char_ptr, CType.va_list]⟩,
    ⟨"tell", []⟩,
    ⟨"seek", [CType.long, CType.int]⟩,
    ⟨"flush", []⟩,
    ⟨"close", []⟩ ]
  ++ (if WIN32 then
        [ ⟨"fp_wrap", [CType.const_wchar_t_ptr, CType.const_wchar_t_ptr]⟩,
          ⟨"open", [CType.const_wchar_t_ptr, CType.const_wchar_t_ptr]⟩ ]
      else [])
  ++ [ ⟨"fp_wrap", [CType.const_fp_wrap_ref]⟩,
       ⟨"operator=", [CType.const_fp_wrap_ref]⟩ ]

/-- The member functions the header defines after the class body. -/
def definedMembers (WIN32 : Bool) : List MemberSig :=
  [ ⟨"fp_wrap", []⟩,
    ⟨"fp_wrap", [CType.FILE_ptr]⟩,
    ⟨"fp_wrap", [CType.const_char_ptr, CType.const_char_ptr]⟩,
    ⟨"~fp_wrap", []⟩,
    ⟨"open", [CType.const_char_ptr, CType.const_char_ptr]⟩,
    ⟨"open_tmp", []⟩,
    ⟨"is_open", []⟩,
    ⟨"is_eof", []⟩,
    ⟨"get_error", []⟩,
    ⟨"fp", []⟩,
    ⟨"read", [CType.void_ptr, CType.size_t, CType.size_t]⟩,
    ⟨"write", [CType.const_void_ptr, CType.size_t, CType.size_t]⟩,
    ⟨"getchr", []⟩,
    ⟨"putchr", [CType.int]⟩,
    ⟨"getstr", [CType.char_ptr, CType.int]⟩,
    ⟨"putstr", [CType.const_char_ptr]⟩,
    ⟨"scan", [CType.const_char_ptr, CType.ellipsis]⟩,
    ⟨"vscan", [CType.const_char_ptr, CType.va_list]⟩,
    ⟨"print", [CType.const_char_ptr, CType.ellipsis]⟩,
    ⟨"vprint", [CType.const_char_ptr, CType.va_list]⟩,
    ⟨"tell", []⟩,
    ⟨"seek", [CType.long, CType.int]⟩,
    ⟨"flush", []⟩,
    ⟨"close", []⟩ ]
  ++ (if WIN32 then
        [ ⟨"fp_wrap", [CType.const_wchar_t_ptr, CType.const_wchar_t_ptr]⟩,
          ⟨"wopen", [CType.const_wchar_t_ptr, CType.const_wchar_t_ptr]⟩ ]
      else [])

/-- The wide-character `open` the class declares under `_WIN32` (line 53). -/
def wideOpenDecl : MemberSig :=
  ⟨"open", [CType.const_wchar_t_ptr, CType.const_wchar_t_ptr]⟩

/-- The member the wide-character body is defined as (line 241), which is also
the name the wide-character constructor calls (line 238). -/
def wopenDef : MemberSig :=
  ⟨"wopen", [CType.const_wchar_t_ptr, CType.const_wchar_t_ptr]⟩

/-- The body bound to a declared member: a call of the member runs this.  The
bodies are the definitions above; a declared member without a definition has
none. -/
def wideOpenBody (P : Platform) (WIN32 : Bool) : Option (WString → WString → Method Bool) :=
  if wideOpenDecl ∈ declaredMembers WIN32 ∧ wideOpenDecl ∈ definedMembers WIN32 then
    some (fp_wrap.wopen P)
  else none

/-! Object lifetimes -/

/-- The three constructors available on every platform. -/
inductive Ctor where
  | default
  | fp (fp : FilePtr)
  | fname (fname mode : String)
  deriving DecidableEq, Repr

/-- Run a constructor. -/
def Ctor.run (P : Platform) : Ctor → World → Outcome Unit
  | Ctor.default, w => fp_wrap.ctor w
  | Ctor.fp p, w => fp_wrap.ctor_fp p w
  | Ctor.fname f m, w => fp_wrap.ctor_fname P f m w

/-- A call that changes which handle is owned. -/
inductive Call where
  | open (fname mode : String)
  | open_tmp
  | close
  deriving DecidableEq, Repr

/-- Make the call, discarding its return value. -/
def Call.run (P : Platform) : Call → Method Unit
  | Call.open f m => do let _ ← fp_wrap.open P f m
  | Call.open_tmp => do let _ ← fp_wrap.open_tmp P
  | Call.close => do let _ ← fp_wrap.close P

/-- Make the calls one after the other. -/
def runCalls (P : Platform) : List Call → Method Unit
  | [] => pure ()
  | c :: cs => do
      c.run P
      runCalls P cs

/-- The object after construction and the calls, before it is destroyed. -/
def stateAfter (P : Platform) (c : Ctor) (calls : List Call) (w : World) : Outcome Unit :=
  match c.run P w with
  | Outcome.returned _ self w1 => runCalls P calls self w1
  | Outcome.aborted self w1 => Outcome.aborted self w1

/-- A whole lifetime: construction, the calls, destruction. -/
def lifetime (P : Platform) (c : Ctor) (calls : List Call) (w : World) : Outcome Unit :=
  match stateAfter P c calls w with
  | Outcome.returned _ self w1 => fp_wrap.dtor P self w1
  | Outcome.aborted self w1 => Outcome.aborted self w1

/-- The platform calls made during the lifetime. -/
def lifetimeEvents (P : Platform) (c : Ctor) (calls : List Call) (w : World) : List Event :=
  (lifetime P c calls w).world.drop w.length

/-- The handle an event closes. -/
def Event.closed? : Event → Option FilePtr
  | Event.fclose stream _ => some stream
  | _ => none

/-- The handle an event hands out: the result of a successful open. -/
def Event.opened? : Event → Option FilePtr
  | Event.fopen _ _ ret => if ret = NULL then none else some ret
  | Event.wfopen _ _ ret => if ret = NULL then none else some ret
  | Event.tmpfile ret => if ret = NULL then none else some ret
  | _ => none

/-- The handles passed to `fclose`, in order. -/
def closedHandles (t : List Event) : List FilePtr := t.filterMap Event.closed?

/-- The handles the platform handed out, in order. -/
def openedHandles (t : List Event) : List FilePtr := t.filterMap Event.opened?

/-- A pointer as a list of handles: nothing for `NULL`. -/
def handleList (p : FilePtr) : List FilePtr := if p = NULL then [] else [p]

/-- The external handle a constructor adopts. -/
def Ctor.adopted : Ctor → List FilePtr
  | Ctor.fp p => handleList p
  | _ => []

/-- Every handle given to the object: the adopted one, then those the platform
handed out in `t`. -/
def handedOut (c : Ctor) (t : List Event) : List FilePtr := c.adopted ++ openedHandles t

/-- The object owned handle `h` at some point of its life: after construction
and some initial part of the calls, `m_fp` was `h`. -/
def EverOwned (P : Platform) (c : Ctor) (calls : List Call) (w : World) (h : FilePtr) : Prop :=
  h ≠ NULL ∧ ∃ pre post, calls = pre ++ post ∧ (stateAfter P c pre w).self.m_fp = h

/-- A member function that requires a present handle: without one the call
aborts before anything else happens, with one it returns. -/
def RequiresHandle {α : Type} (m : Method α) : Prop :=
  ∀ (self : fp_wrap) (w : World),
    if self.m_fp = NULL then m self w = Outcome.aborted self w
    else (m self w).isReturned = true

/-- The platform calls that release the handle the object owns in world `w`:
one `fclose` of `m_fp` when a handle is owned, none otherwise. -/
def releaseEvents (P : Platform) (self : fp_wrap) (w : World) : List Event :=
  if self.m_fp = NULL then [] else [Event.fclose self.m_fp (P.fclose w self.m_fp)]

/-- A sample platform: opens succeed with a handle numbered after the length of
the history, `tmpfile` fails when the history is empty, every other primitive
answers with a fixed value. -/
def samplePlatform : Platform where
  EOF := -1
  fopen := fun w _ _ => w.length + 10
  wfopen := fun w _ _ => w.length + 10
  tmpfile := fun w => if w.length = 0 then NULL else w.length + 10
  fclose := fun _ _ => 0
  feof := fun _ _ => 1
  ferror := fun _ _ => 0
  fread := fun _ _ _ count _ => count
  fwrite := fun _ _ _ count _ => count
  fgetc := fun _ _ => 65
  fputc := fun _ ch _ => ch
  fgets := fun _ str _ _ => str
  fputs := fun _ _ _ => 0
  vfscanf := fun _ _ _ va => va.length
  vfprintf := fun _ _ _ _ => 3
  ftell := fun w _ => w.length
  fseek := fun _ _ _ _ => 0
  fflush := fun _ _ => 0

/-! Theorems -/

/-! What each member function computes -/

theorem fp_wrap.is_open_eq (self : fp_wrap) (w : World) :
    fp_wrap.is_open self w = Outcome.returned (self.m_fp != NULL) self w := rfl

theorem fp_wrap.close_eq (P : Platform) (self : fp_wrap) (w : World) :
    fp_wrap.close P self w =
      if self.m_fp = NULL then Outcome.returned P.EOF self w
      else Outcome.returned (P.fclose w self.m_fp) { m_fp := NULL }
        (w ++ [Event.fclose self.m_fp (P.fclose w self.m_fp)]) := by
  by_cases h : self.m_fp = NULL
  · simp [fp_wrap.close, bind, Method.bind, pure, Method.pure, get_m_fp, set_m_fp, std.fclose, h]
  · simp [fp_wrap.close, bind, Method.bind, pure, Method.pure, get_m_fp, set_m_fp, std.fclose, h]

theorem fp_wrap.get_error_eq (P : Platform) (self : fp_wrap) (w : World) :
    fp_wrap.get_error P self w =
      if self.m_fp = NULL then Outcome.aborted self w
      else Outcome.returned (P.ferror w self.m_fp) self
        (w ++ [Event.ferror self.m_fp (P.ferror w self.m_fp)]) := by
  by_cases h : self.m_fp = NULL
  · simp [fp_wrap.get_error, bind, Method.bind, get_m_fp, assert, h]
  · simp [fp_wrap.get_error, bind, Method.bind, get_m_fp, assert, std.ferror, h]

theorem fp_wrap.read_eq (P : Platform) (buffer size count : Nat) (self : fp_wrap) (w : World) :
    fp_wrap.read P buffer size count self w =
      if self.m_fp = NULL then Outcome.aborted self w
      else Outcome.returned (P.fread w buffer size count self.m_fp) self
        (w ++ [Event.fread buffer size count self.m_fp (P.fread w buffer size count self.m_fp)]) := by
  by_cases h : self.m_fp = NULL
  · simp [fp_wrap.read, bind, Method.bind, get_m_fp, assert, h]
  · simp [fp_wrap.read, bind, Method.bind, get_m_fp, assert, std.fread, h]

theorem fp_wrap.write_eq (P : Platform) (buffer size count : Nat) (self : fp_wrap) (w : World) :
    fp_wrap.write P buffer size count self w =
      if self.m_fp = NULL then Outcome.aborted self w
      else Outcome.returned (P.fwrite w buffer size count self.m_fp) self
        (w ++ [Event.fwrite buffer size count self.m_fp (P.fwrite w buffer size count self.m_fp)]) := by
  by_cases h : self.m_fp = NULL
  · simp [fp_wrap.write, bind, Method.bind, get_m_fp, assert, h]
  · simp [fp_wrap.write, bind, Method.bind, get_m_fp, assert, std.fwrite, h]

theorem fp_wrap.getchr_eq (P : Platform) (self : fp_wrap) (w : World) :
    fp_wrap.getchr P self w =
      if self.m_fp = NULL then Outcome.aborted self w
      else Outcome.returned (P.fgetc w self.m_fp) self
        (w ++ [Event.fgetc self.m_fp (P.fgetc w self.m_fp)]) := by
  by_cases h : self.m_fp = NULL
  · simp [fp_wrap.getchr, bind, Method.bind, get_m_fp, assert, h]
  · simp [fp_wrap.getchr, bind, Method.bind, get_m_fp, assert, std.fgetc, h]

theorem fp_wrap.putchr_eq (P : Platform) (chr : Int) (self : fp_wrap) (w : World) :
    fp_wrap.putchr P chr self w =
      if self.m_fp = NULL then Outcome.aborted self w
      else Outcome.returned (P.fputc w chr self.m_fp) self
        (w ++ [Event.fputc chr self.m_fp (P.fputc w chr self.m_fp)]) := by
  by_cases h : self.m_fp = NULL
  · simp [fp_wrap.putchr, bind, Method.bind, get_m_fp, assert, h]
  · simp [fp_wrap.putchr, bind, Method.bind, get_m_fp, assert, std.fputc, h]

theorem fp_wrap.getstr_eq (P : Platform) (str : Nat) (count : Int) (self : fp_wrap) (w : World) :
    fp_wrap.getstr P str count self w =
      if self.m_fp = NULL then Outcome.aborted self w
      else Outcome.returned (P.fgets w str count self.m_fp) self
        (w ++ [Event.fgets str count self.m_fp (P.fgets w str count self.m_fp)]) := by
  by_cases h : self.m_fp = NULL
  · simp [fp_wrap.getstr, bind, Method.bind, get_m_fp, assert, h]
  · simp [fp_wrap.getstr, bind, Method.bind, get_m_fp, assert, std.fgets, h]

theorem fp_wrap.putstr_eq (P : Platform) (str : String) (self : fp_wrap) (w : World) :
    fp_wrap.putstr P str self w =
      if self.m_fp = NULL then Outcome.aborted self w
      else Outcome.returned (P.fputs w str self.m_fp) self
        (w ++ [Event.fputs str self.m_fp (P.fputs w str self.m_fp)]) := by
  by_cases h : self.m_fp = NULL
  · simp [fp_wrap.putstr, bind, Method.bind, get_m_fp, assert, h]
  · simp [fp_wrap.putstr, bind, Method.bind, get_m_fp, assert, std.fputs, h]

theorem fp_wrap.vscan_eq (P : Platform) (fmt : String) (va : VaList) (self : fp_wrap) (w : World) :
    fp_wrap.vscan P fmt va self w =
      if self.m_fp = NULL then Outcome.aborted self w
      else Outcome.returned (P.vfscanf w self.m_fp fmt va) self
        (w ++ [Event.vfscanf self.m_fp fmt va (P.vfscanf w self.m_fp fmt va)]) := by
  by_cases h : self.m_fp = NULL
  · simp [fp_wrap.vscan, bind, Method.bind, get_m_fp, assert, h]
  · simp [fp_wrap.vscan, bind, Method.bind, get_m_fp, assert, std.vfscanf, h]

theorem fp_wrap.vprint_eq (P : Platform) (fmt : String) (va : VaList) (self : fp_wrap) (w : World) :
    fp_wrap.vprint P fmt va self w =
      if self.m_fp = NULL then Outcome.aborted self w
      else Outcome.returned (P.vfprintf w self.m_fp fmt va) self
        (w ++ [Event.vfprintf self.m_fp fmt va (P.vfprintf w self.m_fp fmt va)]) := by
  by_cases h : self.m_fp = NULL
  · simp [fp_wrap.vprint, bind, Method.bind, get_m_fp, assert, h]
  · simp [fp_wrap.vprint, bind, Method.bind, get_m_fp, assert, std.vfprintf, h]

theorem fp_wrap.tell_eq (P : Platform) (self : fp_wrap) (w : World) :
    fp_wrap.tell P self w =
      if self.m_fp = NULL then Outcome.aborted self w
      else Outcome.returned (P.ftell w self.m_fp) self
        (w ++ [Event.ftell self.m_fp (P.ftell w self.m_fp)]) := by
  by_cases h : self.m_fp = NULL
  · simp [fp_wrap.tell, bind, Method.bind, get_m_fp, assert, h]
  · simp [fp_wrap.tell, bind, Method.bind, get_m_fp, assert, std.ftell, h]

theorem fp_wrap.seek_eq (P : Platform) (offset origin : Int) (self : fp_wrap) (w : World) :
    fp_wrap.seek P offset origin self w =
      if self.m_fp = NULL then Outcome.aborted self w
      else Outcome.returned (P.fseek w self.m_fp offset origin) self
        (w ++ [Event.fseek self.m_fp offset origin (P.fseek w self.m_fp offset origin)]) := by
  by_cases h : self.m_fp = NULL
  · simp [fp_wrap.seek, bind, Method.bind, get_m_fp, assert, h]
  · simp [fp_wrap.seek, bind, Method.bind, get_m_fp, assert, std.fseek, h]

theorem fp_wrap.flush_eq (P : Platform) (self : fp_wrap) (w : World) :
    fp_wrap.flush P self w =
      if self.m_fp = NULL then Outcome.aborted self w
      else Outcome.returned (P.fflush w self.m_fp) self
        (w ++ [Event.fflush self.m_fp (P.fflush w self.m_fp)]) := by
  by_cases h : self.m_fp = NULL
  · simp [fp_wrap.flush, bind, Method.bind, get_m_fp, assert, h]
  · simp [fp_wrap.flush, bind, Method.bind, get_m_fp, assert, std.fflush, h]

theorem fp_wrap.is_eof_eq (P : Platform) (self : fp_wrap) (w : World) :
    fp_wrap.is_eof P self w =
      if self.m_fp = NULL then Outcome.aborted self w
      else Outcome.returned (P.feof w self.m_fp != 0) self
        (w ++ [Event.feof self.m_fp (P.feof w self.m_fp)]) := by
  by_cases h : self.m_fp = NULL
  · simp [fp_wrap.is_eof, bind, Method.bind, get_m_fp, assert, h]
  · simp [fp_wrap.is_eof, bind, Method.bind, pure, Method.pure, get_m_fp, assert, std.feof, h]

theorem fp_wrap.scan_eq (P : Platform) (fmt : String) (args : VaList) (self : fp_wrap)
    (w : World) : fp_wrap.scan P fmt args self w = fp_wrap.vscan P fmt args self w := by
  by_cases h : self.m_fp = NULL
  · simp [fp_wrap.scan, fp_wrap.vscan, bind, Method.bind, get_m_fp, assert, h]
  · simp [fp_wrap.scan, fp_wrap.vscan_eq, bind, Method.bind, pure, Method.pure, get_m_fp,
      assert, h]

theorem fp_wrap.print_eq (P : Platform) (fmt : String) (args : VaList) (self : fp_wrap)
    (w : World) : fp_wrap.print P fmt args self w = fp_wrap.vprint P fmt args self w := by
  by_cases h : self.m_fp = NULL
  · simp [fp_wrap.print, fp_wrap.vprint, bind, Method.bind, get_m_fp, assert, h]
  · simp [fp_wrap.print, fp_wrap.vprint_eq, bind, Method.bind, pure, Method.pure, get_m_fp,
      assert, h]

theorem fp_wrap.close_world (P : Platform) (self : fp_wrap) (w : World) :
    fp_wrap.close P self w =
      Outcome.returned (if self.m_fp = NULL then P.EOF else P.fclose w self.m_fp)
        { m_fp := NULL } (w ++ releaseEvents P self w) := by
  rw [fp_wrap.close_eq]
  by_cases h : self.m_fp = NULL
  · cases self
    simp_all [releaseEvents]
  · simp [releaseEvents, h]

theorem fp_wrap.open_eq (P : Platform) (fname mode : String) (self : fp_wrap) (w : World) :
    fp_wrap.open P fname mode self w =
      Outcome.returned (P.fopen (w ++ releaseEvents P self w) fname mode != NULL)
        { m_fp := P.fopen (w ++ releaseEvents P self w) fname mode }
        (w ++ releaseEvents P self w
          ++ [Event.fopen fname mode (P.fopen (w ++ releaseEvents P self w) fname mode)]) := by
  simp [fp_wrap.open, bind, Method.bind, fp_wrap.close_world, set_m_fp, std.fopen,
    fp_wrap.is_open_eq]

theorem fp_wrap.open_tmp_eq (P : Platform) (self : fp_wrap) (w : World) :
    fp_wrap.open_tmp P self w =
      Outcome.returned (P.tmpfile (w ++ releaseEvents P self w) != NULL)
        { m_fp := P.tmpfile (w ++ releaseEvents P self w) }
        (w ++ releaseEvents P self w
          ++ [Event.tmpfile (P.tmpfile (w ++ releaseEvents P self w))]) := by
  simp [fp_wrap.open_tmp, bind, Method.bind, fp_wrap.close_world, set_m_fp, std.tmpfile,
    fp_wrap.is_open_eq]

theorem fp_wrap.wopen_eq (P : Platform) (fname mode : WString) (self : fp_wrap) (w : World) :
    fp_wrap.wopen P fname mode self w =
      Outcome.returned (P.wfopen (w ++ releaseEvents P self w) fname mode != NULL)
        { m_fp := P.wfopen (w ++ releaseEvents P self w) fname mode }
        (w ++ releaseEvents P self w
          ++ [Event.wfopen fname mode (P.wfopen (w ++ releaseEvents P self w) fname mode)]) := by
  simp [fp_wrap.wopen, bind, Method.bind, fp_wrap.close_world, set_m_fp, std.wfopen,
    fp_wrap.is_open_eq]

/-! close and is_open -/

/-- C1: in every state of the object and whatever the platform close
primitive answers, `close()` returns and `is_open()` called right after it
returns false. -/
theorem C1_close_then_not_open (P : Platform) (self : fp_wrap) (w : World) :
    ∃ ret self1 w1, fp_wrap.close P self w = Outcome.returned ret self1 w1 ∧
      fp_wrap.is_open self1 w1 = Outcome.returned false self1 w1 := by
  refine ⟨_, _, _, fp_wrap.close_world P self w, ?_⟩
  simp [fp_wrap.is_open_eq]

/-- C2: with a handle owned, `close()` returns what `fclose` answered for that
handle and the only platform call it makes is that one `fclose`; with no handle
owned it returns `EOF`, makes no platform call, leaves the object as it is and
does not abort. -/
theorem C2_close_result (P : Platform) (self : fp_wrap) (w : World) :
    fp_wrap.close P self w =
      if self.m_fp = NULL then Outcome.returned P.EOF self w
      else Outcome.returned (P.fclose w self.m_fp) { m_fp := NULL }
        (w ++ [Event.fclose self.m_fp (P.fclose w self.m_fp)]) :=
  fp_wrap.close_eq P self w

/-- C3: `close()` is idempotent.  After a first `close()`, whatever it
returned, the object owns no handle, and a second `close()` returns `EOF`,
makes no platform call and leaves the object in the state the first call left
it in. -/
theorem C3_close_idempotent (P : Platform) (self : fp_wrap) (w : World) :
    ∃ ret1 self1 w1, fp_wrap.close P self w = Outcome.returned ret1 self1 w1 ∧
      self1.m_fp = NULL ∧
      fp_wrap.close P self1 w1 = Outcome.returned P.EOF self1 w1 := by
  refine ⟨_, _, _, fp_wrap.close_world P self w, rfl, ?_⟩
  simp [fp_wrap.close_eq]

/-- C6: `is_open()` returns true exactly when `m_fp` is not `NULL`; it returns
in every state, makes no platform call and leaves the object unchanged. -/
theorem C6_is_open (self : fp_wrap) (w : World) :
    fp_wrap.is_open self w = Outcome.returned (decide (self.m_fp ≠ NULL)) self w := by
  rw [fp_wrap.is_open_eq]
  by_cases h : self.m_fp = NULL <;> simp [h]

/-! open and open_tmp -/

/-- C4: `open(fname, mode)` first releases the owned handle, if any, through
`fclose`, then calls `fopen`, in this order and whether or not `fopen`
succeeds.  It returns true exactly when `fopen` gave a non-null handle, and the
object then holds what `fopen` gave: the new handle on success, no handle on
failure. -/
theorem C4_open (P : Platform) (fname mode : String) (self : fp_wrap) (w : World) :
    fp_wrap.open P fname mode self w =
        Outcome.returned (decide (P.fopen (w ++ releaseEvents P self w) fname mode ≠ NULL))
          { m_fp := P.fopen (w ++ releaseEvents P self w) fname mode }
          (w ++ releaseEvents P self w
            ++ [Event.fopen fname mode (P.fopen (w ++ releaseEvents P self w) fname mode)]) ∧
      ((fp_wrap.open P fname mode self w).ret? = some false ↔
        (fp_wrap.open P fname mode self w).self.m_fp = NULL) := by
  rw [fp_wrap.open_eq]
  by_cases h : P.fopen (w ++ releaseEvents P self w) fname mode = NULL <;>
    simp [h, Outcome.ret?, Outcome.self]

/-- C8: `open_tmp()` first releases the owned handle, if any, through `fclose`,
then calls `tmpfile`.  It returns true exactly when `tmpfile` gave a non-null
handle, and the object then holds what `tmpfile` gave: the new handle on
success, no handle on failure. -/
theorem C8_open_tmp (P : Platform) (self : fp_wrap) (w : World) :
    fp_wrap.open_tmp P self w =
        Outcome.returned (decide (P.tmpfile (w ++ releaseEvents P self w) ≠ NULL))
          { m_fp := P.tmpfile (w ++ releaseEvents P self w) }
          (w ++ releaseEvents P self w
            ++ [Event.tmpfile (P.tmpfile (w ++ releaseEvents P self w))]) ∧
      ((fp_wrap.open_tmp P self w).ret? = some false ↔
        (fp_wrap.open_tmp P self w).self.m_fp = NULL) := by
  rw [fp_wrap.open_tmp_eq]
  by_cases h : P.tmpfile (w ++ releaseEvents P self w) = NULL <;>
    simp [h, Outcome.ret?, Outcome.self]

/-! The operations that require a handle -/

/-- C7: each of `is_eof`, `get_error`, `read`, `write`, `getchr`, `putchr`,
`getstr`, `putstr`, `scan`, `vscan`, `print`, `vprint`, `tell`, `seek` and
`flush` requires a present handle: on an object without a handle the call
aborts on the assertion with no platform call made, on an object with a handle
it returns. -/
theorem C7_io_requires_handle (P : Platform) :
    RequiresHandle (fp_wrap.is_eof P) ∧
    RequiresHandle (fp_wrap.get_error P) ∧
    (∀ buffer size count, RequiresHandle (fp_wrap.read P buffer size count)) ∧
    (∀ buffer size count, RequiresHandle (fp_wrap.write P buffer size count)) ∧
    RequiresHandle (fp_wrap.getchr P) ∧
    (∀ chr, RequiresHandle (fp_wrap.putchr P chr)) ∧
    (∀ str count, RequiresHandle (fp_wrap.getstr P str count)) ∧
    (∀ str, RequiresHandle (fp_wrap.putstr P str)) ∧
    (∀ fmt args, RequiresHandle (fp_wrap.scan P fmt args)) ∧
    (∀ fmt va, RequiresHandle (fp_wrap.vscan P fmt va)) ∧
    (∀ fmt args, RequiresHandle (fp_wrap.print P fmt args)) ∧
    (∀ fmt va, RequiresHandle (fp_wrap.vprint P fmt va)) ∧
    RequiresHandle (fp_wrap.tell P) ∧
    (∀ offset origin, RequiresHandle (fp_wrap.seek P offset origin)) ∧
    RequiresHandle (fp_wrap.flush P) := by
  refine ⟨?_, ?_, ?_, ?_, ?_, ?_, ?_, ?_, ?_, ?_, ?_, ?_, ?_, ?_, ?_⟩
  · intro self w
    rw [fp_wrap.is_eof_eq]
    by_cases h : self.m_fp = NULL <;> simp [h, Outcome.isReturned]
  · intro self w
    rw [fp_wrap.get_error_eq]
    by_cases h : self.m_fp = NULL <;> simp [h, Outcome.isReturned]
  · intro buffer size count self w
    rw [fp_wrap.read_eq]
    by_cases h : self.m_fp = NULL <;> simp [h, Outcome.isReturned]
  · intro buffer size count self w
    rw [fp_wrap.write_eq]
    by_cases h : self.m_fp = NULL <;> simp [h, Outcome.isReturned]
  · intro self w
    rw [fp_wrap.getchr_eq]
    by_cases h : self.m_fp = NULL <;> simp [h, Outcome.isReturned]
  · intro chr self w
    rw [fp_wrap.putchr_eq]
    by_cases h : self.m_fp = NULL <;> simp [h, Outcome.isReturned]
  · intro str count self w
    rw [fp_wrap.getstr_eq]
    by_cases h : self.m_fp = NULL <;> simp [h, Outcome.isReturned]
  · intro str self w
    rw [fp_wrap.putstr_eq]
    by_cases h : self.m_fp = NULL <;> simp [h, Outcome.isReturned]
  · intro fmt args self w
    rw [fp_wrap.scan_eq, fp_wrap.vscan_eq]
    by_cases h : self.m_fp = NULL <;> simp [h, Outcome.isReturned]
  · intro fmt va self w
    rw [fp_wrap.vscan_eq]
    by_cases h : self.m_fp = NULL <;> simp [h, Outcome.isReturned]
  · intro fmt args self w
    rw [fp_wrap.print_eq, fp_wrap.vprint_eq]
    by_cases h : self.m_fp = NULL <;> simp [h, Outcome.isReturned]
  · intro fmt va self w
    rw [fp_wrap.vprint_eq]
    by_cases h : self.m_fp = NULL <;> simp [h, Outcome.isReturned]
  · intro self w
    rw [fp_wrap.tell_eq]
    by_cases h : self.m_fp = NULL <;> simp [h, Outcome.isReturned]
  · intro offset origin self w
    rw [fp_wrap.seek_eq]
    by_cases h : self.m_fp = NULL <;> simp [h, Outcome.isReturned]
  · intro self w
    rw [fp_wrap.flush_eq]
    by_cases h : self.m_fp = NULL <;> simp [h, Outcome.isReturned]

/-- C10: on an object that owns a handle, each of `get_error`, `read`, `write`,
`getchr`, `putchr`, `getstr`, `putstr`, `vscan`, `vprint`, `tell`, `seek` and
`flush` makes exactly one platform call, of the matching primitive on the owned
handle with the arguments of the caller, and returns what that call answered;
`is_eof` returns true exactly when `feof` of the handle is non-zero; `scan` and
`print` do what `vscan` and `vprint` do with the same format and arguments; and
the object owns the same handle afterwards. -/
theorem C10_io_forwards (P : Platform) (self : fp_wrap) (w : World) (h : self.m_fp ≠ NULL) :
    fp_wrap.get_error P self w =
        Outcome.returned (P.ferror w self.m_fp) self
          (w ++ [Event.ferror self.m_fp (P.ferror w self.m_fp)]) ∧
    (∀ buffer size count, fp_wrap.read P buffer size count self w =
        Outcome.returned (P.fread w buffer size count self.m_fp) self
          (w ++ [Event.fread buffer size count self.m_fp
            (P.fread w buffer size count self.m_fp)])) ∧
    (∀ buffer size count, fp_wrap.write P buffer size count self w =
        Outcome.returned (P.fwrite w buffer size count self.m_fp) self
          (w ++ [Event.fwrite buffer size count self.m_fp
            (P.fwrite w buffer size count self.m_fp)])) ∧
    fp_wrap.getchr P self w =
        Outcome.returned (P.fgetc w self.m_fp) self
          (w ++ [Event.fgetc self.m_fp (P.fgetc w self.m_fp)]) ∧
    (∀ chr, fp_wrap.putchr P chr self w =
        Outcome.returned (P.fputc w chr self.m_fp) self
          (w ++ [Event.fputc chr self.m_fp (P.fputc w chr self.m_fp)])) ∧
    (∀ str count, fp_wrap.getstr P str count self w =
        Outcome.returned (P.fgets w str count self.m_fp) self
          (w ++ [Event.fgets str count self.m_fp (P.fgets w str count self.m_fp)])) ∧
    (∀ str, fp_wrap.putstr P str self w =
        Outcome.returned (P.fputs w str self.m_fp) self
          (w ++ [Event.fputs str self.m_fp (P.fputs w str self.m_fp)])) ∧
    (∀ fmt va, fp_wrap.vscan P fmt va self w =
        Outcome.returned (P.vfscanf w self.m_fp fmt va) self
          (w ++ [Event.vfscanf self.m_fp fmt va (P.vfscanf w self.m_fp fmt va)])) ∧
    (∀ fmt va, fp_wrap.vprint P fmt va self w =
        Outcome.returned (P.vfprintf w self.m_fp fmt va) self
          (w ++ [Event.vfprintf self.m_fp fmt va (P.vfprintf w self.m_fp fmt va)])) ∧
    fp_wrap.tell P self w =
        Outcome.returned (P.ftell w self.m_fp) self
          (w ++ [Event.ftell self.m_fp (P.ftell w self.m_fp)]) ∧
    (∀ offset origin, fp_wrap.seek P offset origin self w =
        Outcome.returned (P.fseek w self.m_fp offset origin) self
          (w ++ [Event.fseek self.m_fp offset origin (P.fseek w self.m_fp offset origin)])) ∧
    fp_wrap.flush P self w =
        Outcome.returned (P.fflush w self.m_fp) self
          (w ++ [Event.fflush self.m_fp (P.fflush w self.m_fp)]) ∧
    fp_wrap.is_eof P self w =
        Outcome.returned (decide (P.feof w self.m_fp ≠ 0)) self
          (w ++ [Event.feof self.m_fp (P.feof w self.m_fp)]) ∧
    (∀ fmt args, fp_wrap.scan P fmt args self w = fp_wrap.vscan P fmt args self w) ∧
    (∀ fmt args, fp_wrap.print P fmt args self w = fp_wrap.vprint P fmt args self w) := by
  refine ⟨?_, ?_, ?_, ?_, ?_, ?_, ?_, ?_, ?_, ?_, ?_, ?_, ?_, ?_, ?_⟩
  · simp [fp_wrap.get_error_eq, h]
  · intro buffer size count
    simp [fp_wrap.read_eq, h]
  · intro buffer size count
    simp [fp_wrap.write_eq, h]
  · simp [fp_wrap.getchr_eq, h]
  · intro chr
    simp [fp_wrap.putchr_eq, h]
  · intro str count
    simp [fp_wrap.getstr_eq, h]
  · intro str
    simp [fp_wrap.putstr_eq, h]
  · intro fmt va
    simp [fp_wrap.vscan_eq, h]
  · intro fmt va
    simp [fp_wrap.vprint_eq, h]
  · simp [fp_wrap.tell_eq, h]
  · intro offset origin
    simp [fp_wrap.seek_eq, h]
  · simp [fp_wrap.flush_eq, h]
  · rw [fp_wrap.is_eof_eq]
    by_cases h0 : P.feof w self.m_fp = 0 <;> simp [h, h0]
  · intro fmt args
    exact fp_wrap.scan_eq P fmt args self w
  · intro fmt args
    exact fp_wrap.print_eq P fmt args self w

/-- C10 at a concrete input: an object owning handle 7 on the sample platform;
`getchr` makes the single call `fgetc(7)` and returns its answer, 65. -/
theorem C10_io_forwards_witness :
    (fp_wrap.mk 7).m_fp ≠ NULL ∧
      fp_wrap.getchr samplePlatform (fp_wrap.mk 7) [] =
        Outcome.returned 65 (fp_wrap.mk 7) [Event.fgetc 7 65] :=
  ⟨by decide, (C10_io_forwards samplePlatform (fp_wrap.mk 7) [] (by decide)).2.2.2.1⟩
/-! Release exactly once -/

theorem mem_handleList (h p : FilePtr) : h ∈ handleList p ↔ h ≠ NULL ∧ p = h := by
  unfold handleList
  by_cases hp : p = NULL
  · simp only [hp, if_true, List.not_mem_nil, false_iff]
    intro hh
    exact hh.1 hh.2.symm
  · simp only [hp, if_false, List.mem_singleton]
    constructor
    · intro e
      subst e
      exact ⟨hp, rfl⟩
    · intro e
      exact e.2.symm

theorem closedHandles_append (t1 t2 : List Event) :
    closedHandles (t1 ++ t2) = closedHandles t1 ++ closedHandles t2 := by
  simp [closedHandles, List.filterMap_append]

theorem openedHandles_append (t1 t2 : List Event) :
    openedHandles (t1 ++ t2) = openedHandles t1 ++ openedHandles t2 := by
  simp [openedHandles, List.filterMap_append]

theorem closedHandles_releaseEvents (P : Platform) (self : fp_wrap) (w : World) :
    closedHandles (releaseEvents P self w) = handleList self.m_fp := by
  by_cases h : self.m_fp = NULL <;>
    simp [closedHandles, releaseEvents, handleList, Event.closed?, h]

theorem openedHandles_releaseEvents (P : Platform) (self : fp_wrap) (w : World) :
    openedHandles (releaseEvents P self w) = [] := by
  by_cases h : self.m_fp = NULL <;>
    simp [openedHandles, releaseEvents, Event.opened?, h]

theorem Call.run_call_spec (P : Platform) (c : Call) (self : fp_wrap) (w : World) :
    ∃ s1 t1, Call.run P c self w = Outcome.returned () s1 (w ++ t1) ∧
      closedHandles t1 = handleList self.m_fp ∧ openedHandles t1 = handleList s1.m_fp := by
  cases c with
  | «open» f m =>
    refine ⟨{ m_fp := P.fopen (w ++ releaseEvents P self w) f m },
      releaseEvents P self w ++ [Event.fopen f m (P.fopen (w ++ releaseEvents P self w) f m)],
      ?_, ?_, ?_⟩
    · simp only [Call.run, bind, Method.bind, fp_wrap.open_eq, pure, Method.pure,
        List.append_assoc]
    · rw [closedHandles_append, closedHandles_releaseEvents]
      simp [closedHandles, Event.closed?]
    · rw [openedHandles_append, openedHandles_releaseEvents, List.nil_append]
      by_cases h : P.fopen (w ++ releaseEvents P self w) f m = NULL <;>
        simp [openedHandles, Event.opened?, handleList, h]
  | open_tmp =>
    refine ⟨{ m_fp := P.tmpfile (w ++ releaseEvents P self w) },
      releaseEvents P self w ++ [Event.tmpfile (P.tmpfile (w ++ releaseEvents P self w))],
      ?_, ?_, ?_⟩
    · simp only [Call.run, bind, Method.bind, fp_wrap.open_tmp_eq, pure, Method.pure,
        List.append_assoc]
    · rw [closedHandles_append, closedHandles_releaseEvents]
      simp [closedHandles, Event.closed?]
    · rw [openedHandles_append, openedHandles_releaseEvents, List.nil_append]
      by_cases h : P.tmpfile (w ++ releaseEvents P self w) = NULL <;>
        simp [openedHandles, Event.opened?, handleList, h]
  | close =>
    refine ⟨{ m_fp := NULL }, releaseEvents P self w, ?_, ?_, ?_⟩
    · simp only [Call.run, bind, Method.bind, fp_wrap.close_world, pure, Method.pure]
    · exact closedHandles_releaseEvents P self w
    · simp [openedHandles_releaseEvents, handleList]

theorem runCalls_cons (P : Platform) (c : Call) (cs : List Call) (self : fp_wrap) (w : World) :
    runCalls P (c :: cs) self w =
      match Call.run P c self w with
      | Outcome.returned _ s1 w1 => runCalls P cs s1 w1
      | Outcome.aborted s1 w1 => Outcome.aborted s1 w1 := by
  rw [runCalls]
  simp only [bind, Method.bind]
  cases Call.run P c self w <;> rfl

theorem runCalls_spec (P : Platform) (calls : List Call) :
    ∀ (self : fp_wrap) (w : World), ∃ s1 t,
      runCalls P calls self w = Outcome.returned () s1 (w ++ t) ∧
      handleList self.m_fp ++ openedHandles t = closedHandles t ++ handleList s1.m_fp ∧
      ∀ h, (h ≠ NULL ∧ ∃ pre post, calls = pre ++ post ∧
              (runCalls P pre self w).self.m_fp = h) ↔
            h ∈ handleList self.m_fp ++ openedHandles t := by
  induction calls with
  | nil =>
    intro self w
    refine ⟨self, [], ?_, ?_, ?_⟩
    · simp [runCalls, pure, Method.pure]
    · simp [openedHandles, closedHandles]
    · intro h
      simp only [openedHandles, List.filterMap_nil, List.append_nil, mem_handleList]
      constructor
      · rintro ⟨hn, pre, post, hpp, hm⟩
        have hpre : pre = [] := (List.append_eq_nil.mp hpp.symm).1
        subst hpre
        exact ⟨hn, hm⟩
      · rintro ⟨hn, hm⟩
        exact ⟨hn, [], [], rfl, hm⟩
  | cons c cs ih =>
    intro self w
    obtain ⟨s1, t1, hrun, hc1, ho1⟩ := Call.run_call_spec P c self w
    obtain ⟨s2, t2, hrest, hcons, hown⟩ := ih s1 (w ++ t1)
    have hstep : ∀ l, runCalls P (c :: l) self w = runCalls P l s1 (w ++ t1) := by
      intro l
      rw [runCalls_cons, hrun]
    refine ⟨s2, t1 ++ t2, ?_, ?_, ?_⟩
    · rw [hstep, hrest, List.append_assoc]
    · rw [openedHandles_append, closedHandles_append, ho1, hc1, List.append_assoc, ← hcons]
    · intro h
      rw [openedHandles_append, ho1, ← List.append_assoc, List.mem_append, List.mem_append,
        or_assoc, ← List.mem_append, ← hown h, mem_handleList]
      constructor
      · rintro ⟨hn, pre, post, hpp, hm⟩
        cases pre with
        | nil => exact Or.inl ⟨hn, hm⟩
        | cons c1 pre1 =>
          have hc : c = c1 := (List.cons.inj hpp).1
          have hcs : cs = pre1 ++ post := (List.cons.inj hpp).2
          subst hc
          rw [hstep] at hm
          exact Or.inr ⟨hn, pre1, post, hcs, hm⟩
      · rintro (⟨hn, hm⟩ | ⟨hn, pre1, post, hcs, hm⟩)
        · exact ⟨hn, [], c :: cs, rfl, hm⟩
        · refine ⟨hn, c :: pre1, post, by rw [hcs]; rfl, ?_⟩
          rw [hstep]
          exact hm

theorem Ctor.run_ctor_spec (P : Platform) (c : Ctor) (w : World) :
    ∃ s0 t0, c.run P w = Outcome.returned () s0 (w ++ t0) ∧
      closedHandles t0 = [] ∧ c.adopted ++ openedHandles t0 = handleList s0.m_fp := by
  cases c with
  | default =>
    refine ⟨{ m_fp := NULL }, [], ?_, rfl, ?_⟩
    · simp [Ctor.run, fp_wrap.ctor]
    · simp [Ctor.adopted, openedHandles, handleList]
  | fp p =>
    refine ⟨{ m_fp := p }, [], ?_, rfl, ?_⟩
    · simp [Ctor.run, fp_wrap.ctor_fp]
    · simp [Ctor.adopted, openedHandles]
  | fname f m =>
    refine ⟨{ m_fp := P.fopen w f m }, [Event.fopen f m (P.fopen w f m)], rfl, ?_, ?_⟩
    · simp [closedHandles, Event.closed?]
    · by_cases h : P.fopen w f m = NULL <;>
        simp [Ctor.adopted, openedHandles, Event.opened?, handleList, h]

theorem fp_wrap.dtor_eq (P : Platform) (self : fp_wrap) (w : World) :
    fp_wrap.dtor P self w = Outcome.returned () { m_fp := NULL } (w ++ releaseEvents P self w) := by
  simp only [fp_wrap.dtor, bind, Method.bind, fp_wrap.close_world, pure, Method.pure]

theorem lifetime_spec (P : Platform) (c : Ctor) (calls : List Call) (w : World) :
    (lifetime P c calls w).isReturned = true ∧
    (lifetime P c calls w).self.m_fp = NULL ∧
    closedHandles (lifetimeEvents P c calls w) = handedOut c (lifetimeEvents P c calls w) ∧
    ∀ h, EverOwned P c calls w h ↔ h ∈ handedOut c (lifetimeEvents P c calls w) := by
  obtain ⟨s0, t0, hctor, hc0, ho0⟩ := Ctor.run_ctor_spec P c w
  obtain ⟨s1, t, hrun, hcons, hown⟩ := runCalls_spec P calls s0 (w ++ t0)
  have hstate : ∀ l, stateAfter P c l w = runCalls P l s0 (w ++ t0) := by
    intro l
    simp only [stateAfter, hctor]
  have hlife : lifetime P c calls w =
      Outcome.returned () { m_fp := NULL } (w ++ (t0 ++ t ++ releaseEvents P s1 (w ++ t0 ++ t))) := by
    simp only [lifetime, hstate, hrun, fp_wrap.dtor_eq, List.append_assoc]
  have hev : lifetimeEvents P c calls w = t0 ++ t ++ releaseEvents P s1 (w ++ t0 ++ t) := by
    simp [lifetimeEvents, hlife, Outcome.world]
  have hhanded : handedOut c (lifetimeEvents P c calls w) = handleList s0.m_fp ++ openedHandles t := by
    rw [hev, handedOut, openedHandles_append, openedHandles_append, openedHandles_releaseEvents,
      List.append_nil, ← List.append_assoc, ho0]
  refine ⟨?_, ?_, ?_, ?_⟩
  · rw [hlife]
    rfl
  · rw [hlife]
    rfl
  · rw [hhanded, hev, closedHandles_append, closedHandles_append, closedHandles_releaseEvents,
      hc0, List.nil_append, hcons]
  · intro h
    rw [hhanded, ← hown h]
    simp only [EverOwned, hstate]

/-- C5: release exactly once.  Take an object built by any of the three
constructors, make any finite sequence of `open`, `open_tmp` and `close` calls
on it, then destroy it.  If the handles given to the object during that life
(the adopted external handle and the results of the successful opens) are
pairwise distinct, then the lifetime runs to the end of the destructor, the
object ends owning no handle, every handle the object ever owned was passed to
`fclose` exactly once, and nothing else was passed to `fclose`. -/
theorem C5_release_exactly_once (P : Platform) (c : Ctor) (calls : List Call) (w : World)
    (hfresh : (handedOut c (lifetimeEvents P c calls w)).Nodup) :
    (lifetime P c calls w).isReturned = true ∧
    (lifetime P c calls w).self.m_fp = NULL ∧
    (∀ h, EverOwned P c calls w h →
      (closedHandles (lifetimeEvents P c calls w)).count h = 1) ∧
    (∀ h, ¬ EverOwned P c calls w h →
      (closedHandles (lifetimeEvents P c calls w)).count h = 0) := by
  obtain ⟨hret, hnull, hclosed, hown⟩ := lifetime_spec P c calls w
  refine ⟨hret, hnull, ?_, ?_⟩
  · intro h hh
    rw [hclosed]
    exact List.count_eq_one_of_mem hfresh ((hown h).mp hh)
  · intro h hh
    rw [hclosed]
    exact List.count_eq_zero_of_not_mem (fun hm => hh ((hown h).mpr hm))

/-- C5 at a concrete input: on the sample platform an object adopts handle 5,
then `open`, `open_tmp`, `close`, `close`, `open_tmp` are called and it is
destroyed.  The handles given to it are 5, 11, 13 and 15; each is closed
exactly once, and 5 in particular. -/
theorem C5_release_exactly_once_witness :
    (handedOut (Ctor.fp 5)
        (lifetimeEvents samplePlatform (Ctor.fp 5)
          [Call.open "a" "rb", Call.open_tmp, Call.close, Call.close, Call.open_tmp] [])).Nodup ∧
      closedHandles
        (lifetimeEvents samplePlatform (Ctor.fp 5)
          [Call.open "a" "rb", Call.open_tmp, Call.close, Call.close, Call.open_tmp] []) =
        [5, 11, 13, 15] ∧
      (closedHandles
        (lifetimeEvents samplePlatform (Ctor.fp 5)
          [Call.open "a" "rb", Call.open_tmp, Call.close, Call.close, Call.open_tmp] [])).count 5
        = 1 :=
  ⟨by decide, by decide,
    (C5_release_exactly_once samplePlatform (Ctor.fp 5)
      [Call.open "a" "rb", Call.open_tmp, Call.close, Call.close, Call.open_tmp] []
      (by decide)).2.2.1 5 ⟨by decide, [], _, rfl, by decide⟩⟩

/-! The wide-character entry points -/

theorem fp_wrap.ctor_wide_eq (P : Platform) (fname mode : WString) (w : World) :
    fp_wrap.ctor_wide P fname mode w =
      Outcome.returned () { m_fp := P.wfopen w fname mode }
        (w ++ [Event.wfopen fname mode (P.wfopen w fname mode)]) := by
  simp [fp_wrap.ctor_wide, bind, Method.bind, pure, Method.pure, fp_wrap.wopen_eq,
    releaseEvents]

/-- C9: the wide-character entry points as the header has them.  With `_WIN32` defined the class declares
a wide-character `open`, but no definition of it follows; the wide-character
body is defined under the name `wopen`, which the class does not declare.  So
the declared wide-character `open` has no body to run.  Without `_WIN32` every
defined member is declared. -/
theorem C9_wide_open_has_no_body :
    wideOpenDecl ∈ declaredMembers true ∧ wideOpenDecl ∉ definedMembers true ∧
    wopenDef ∈ definedMembers true ∧ wopenDef ∉ declaredMembers true ∧
    (∀ P, (wideOpenBody P true).isNone = true) ∧
    (∀ m, m ∈ definedMembers false → m ∈ declaredMembers false) := by
  refine ⟨by decide, by decide, by decide, by decide, ?_, by decide⟩
  intro P
  have h : wideOpenDecl ∉ definedMembers true := by decide
  simp [wideOpenBody, h]

/-- The body the header defines as `wopen` has the transition of the narrow
`open` with `_wfopen` in the place of `fopen`: it releases the owned handle, if
any, calls `_wfopen`, returns true exactly when that gave a non-null handle and
leaves the object holding what it gave; and the wide-character constructor
leaves the object as that body leaves an empty object. -/
theorem wopen_body_parity (P : Platform) (fname mode : WString) (self : fp_wrap) (w : World) :
    fp_wrap.wopen P fname mode self w =
        Outcome.returned (decide (P.wfopen (w ++ releaseEvents P self w) fname mode ≠ NULL))
          { m_fp := P.wfopen (w ++ releaseEvents P self w) fname mode }
          (w ++ releaseEvents P self w
            ++ [Event.wfopen fname mode (P.wfopen (w ++ releaseEvents P self w) fname mode)]) ∧
      (fp_wrap.ctor_wide P fname mode w).self =
        (fp_wrap.wopen P fname mode { m_fp := NULL } w).self ∧
      (fp_wrap.ctor_wide P fname mode w).world =
        (fp_wrap.wopen P fname mode { m_fp := NULL } w).world := by
  refine ⟨?_, ?_, ?_⟩
  · rw [fp_wrap.wopen_eq]
    by_cases h : P.wfopen (w ++ releaseEvents P self w) fname mode = NULL <;> simp [h]
  · simp [fp_wrap.ctor_wide_eq, fp_wrap.wopen_eq, releaseEvents, Outcome.self]
  · simp [fp_wrap.ctor_wide_eq, fp_wrap.wopen_eq, releaseEvents, Outcome.world]
